import Mathlib

/-!
Verification of the OpenSAM opportunity-search subsystem
(`src/app/api/sam-search/route.ts`) against its natural-language
specification.  The TypeScript route is shallowly embedded: pure helpers
become Lean functions, the module-level mutable maps (rate windows, the
search-results cache, the embedding cache) become explicit state threaded
through the functions, `Date.now()` becomes a `Nat` parameter, and the
network (`fetch`) becomes an `Except`-valued environment parameter
describing the outcome the call would have.  Helpers imported from
modules absent from the snapshot (`withCache` from `@/lib/redis`,
`cosineSimilarity` from `@/lib/utils`) are modelled from the spec and
marked as such in their doc comments.
-/

/-! Section: Rate limiter (`checkSAMRateLimit`, route.ts lines 24-49) -/

/-- One entry of `samRateLimitMap`: `{ count, timestamp }`. -/
structure RateWindow where
  count : Nat
  timestamp : Nat
deriving DecidableEq, Repr

/-- `SAM_RATE_LIMIT_WINDOW = 60000` (one minute, in milliseconds). -/
def SAM_RATE_LIMIT_WINDOW : Nat := 60000

/-- `SAM_RATE_LIMIT_MAX_REQUESTS = 100`. -/
def SAM_RATE_LIMIT_MAX_REQUESTS : Nat := 100

/-- `checkSAMRateLimit`, for a single client identity.  `clientData` is the
current `samRateLimitMap` entry for the client (`none` on first contact),
`now` is `Date.now()`.  Returns the admission verdict together with the
map entry afterwards (the source mutates the entry in place; rejection
leaves it unchanged). -/
def checkSAMRateLimit (clientData : Option RateWindow) (now : Nat) : Bool × RateWindow :=
  match clientData with
  | none => (true, ⟨1, now⟩)
  | some cd =>
    if SAM_RATE_LIMIT_WINDOW < now - cd.timestamp then
      (true, ⟨1, now⟩)
    else if SAM_RATE_LIMIT_MAX_REQUESTS ≤ cd.count then
      (false, cd)
    else
      (true, ⟨cd.count + 1, cd.timestamp⟩)

/-- Fold a sequence of calls (given by their `Date.now()` values) through
`checkSAMRateLimit` for one client, counting how many are admitted. -/
def runSAMCalls (times : List Nat) (st : Option RateWindow) : Nat × RateWindow :=
  match times, st with
  | [], some w => (0, w)
  | [], none => (0, ⟨0, 0⟩)
  | t :: ts, st =>
    let r := checkSAMRateLimit st t
    let rest := runSAMCalls ts (some r.2)
    ((if r.1 then 1 else 0) + rest.1, rest.2)

theorem runSAMCalls_within_window (ts : List Nat) :
    ∀ c t0, (∀ t ∈ ts, t - t0 ≤ SAM_RATE_LIMIT_WINDOW) → 1 ≤ c → c ≤ 100 →
      runSAMCalls ts (some ⟨c, t0⟩) =
        (min (100 - c) ts.length, ⟨min 100 (c + ts.length), t0⟩) := by
  induction ts with
  | nil =>
    intro c t0 _ _ hc100
    simp [runSAMCalls]
    omega
  | cons t ts ih =>
    intro c t0 hin hc1 hc100
    have hwin : ¬ SAM_RATE_LIMIT_WINDOW < t - t0 := by
      have := hin t (by simp)
      omega
    have hcap100 : SAM_RATE_LIMIT_MAX_REQUESTS = 100 := rfl
    by_cases hcap : SAM_RATE_LIMIT_MAX_REQUESTS ≤ c
    · simp only [runSAMCalls, checkSAMRateLimit, if_neg hwin, if_pos hcap]
      rw [ih c t0 (fun t ht => hin t (by simp [ht])) hc1 hc100]
      rw [hcap100] at hcap
      simp [Prod.mk.injEq, RateWindow.mk.injEq]
      all_goals omega
    · simp only [runSAMCalls, checkSAMRateLimit, if_neg hwin, if_neg hcap]
      rw [hcap100] at hcap
      rw [ih (c + 1) t0 (fun t ht => hin t (by simp [ht])) (by omega) (by omega)]
      simp [Prod.mk.injEq, RateWindow.mk.injEq]
      all_goals omega

/-- C1: the rate limiter admits the first call from an identity with
count 1; while the elapsed time since the window start is at most the
60-second window a call is admitted iff the stored count is below 100
(incrementing it); a call after the window has elapsed resets the window
to count 1 and is admitted; and over any run of calls all falling within
the window opened by the first call, exactly `min 100 n` of the `n` calls
are admitted — in particular exactly 100 admissions happen and the 101st
call is rejected. -/
theorem claim_C1 :
    (∀ now : Nat, checkSAMRateLimit none now = (true, ⟨1, now⟩))
    ∧ (∀ (w : RateWindow) (t : Nat), t - w.timestamp ≤ SAM_RATE_LIMIT_WINDOW →
        (((checkSAMRateLimit (some w) t).1 = true ↔ w.count < 100)
        ∧ (w.count < 100 →
            checkSAMRateLimit (some w) t = (true, ⟨w.count + 1, w.timestamp⟩))
        ∧ (100 ≤ w.count → checkSAMRateLimit (some w) t = (false, w))))
    ∧ (∀ (w : RateWindow) (t : Nat), SAM_RATE_LIMIT_WINDOW < t - w.timestamp →
        checkSAMRateLimit (some w) t = (true, ⟨1, t⟩))
    ∧ (∀ (t0 : Nat) (ts : List Nat), (∀ t ∈ ts, t - t0 ≤ SAM_RATE_LIMIT_WINDOW) →
        (runSAMCalls (t0 :: ts) none).1 = min 100 (ts.length + 1)) := by
  refine ⟨fun now => rfl, ?_, ?_, ?_⟩
  · intro w t hwin
    have hnlt : ¬ SAM_RATE_LIMIT_WINDOW < t - w.timestamp := by omega
    have hunfold : checkSAMRateLimit (some w) t =
        if 100 ≤ w.count then (false, w) else (true, ⟨w.count + 1, w.timestamp⟩) := by
      simp only [checkSAMRateLimit, if_neg hnlt]
      rfl
    refine ⟨?_, ?_, ?_⟩
    · by_cases hcap : 100 ≤ w.count
      · rw [hunfold, if_pos hcap]
        simp
        omega
      · rw [hunfold, if_neg hcap]
        simp
        omega
    · intro hlt
      rw [hunfold, if_neg (by omega)]
    · intro hge
      rw [hunfold, if_pos hge]
  · intro w t hwin
    simp [checkSAMRateLimit, if_pos hwin]
  · intro t0 ts hin
    have h0 : checkSAMRateLimit none t0 = (true, ⟨1, t0⟩) := rfl
    simp only [runSAMCalls, h0]
    rw [runSAMCalls_within_window ts 1 t0 hin (by omega) (by omega)]
    simp
    omega

/-- Concrete instance of C1: a fresh client is admitted with count 1, and
of 101 calls all at the same instant exactly 100 are admitted. -/
theorem claim_C1_witness :
    checkSAMRateLimit none 5 = (true, ⟨1, 5⟩)
    ∧ (runSAMCalls (0 :: List.replicate 100 0) none).1 = 100 := by
  refine ⟨claim_C1.1 5, ?_⟩
  have h := claim_C1.2.2.2 0 (List.replicate 100 0) (by
    intro t ht
    have := List.eq_of_mem_replicate ht
    simp [this])
  simpa using h

/-! Section: Embedding generator and its cache (`generateEmbeddings`, lines 54-78) -/

/-- Association-list lookup, modelling `Map.get` on the module-level maps
(newest insertion first, mirroring how we model `Map.set` by prepending). -/
def cacheLookup {κ β : Type} [DecidableEq κ] (cache : List (κ × β)) (key : κ) : Option β :=
  match cache.find? (fun e => decide (e.1 = key)) with
  | some e => some e.2
  | none => none

/-- The `embeddingCache` key: `` `${provider}:${text}` ``. -/
def embCacheKey (provider text : String) : String := provider ++ ":" ++ text

/-- `generateEmbeddings`.  `openaiNet` and `hfNet` give the outcome the
respective provider endpoint would return for a text (`.error` for a
non-success response); the embedding cache is threaded explicitly.
Returns the result, the cache afterwards, and the number of network
calls dispatched (0 on a cache hit or unsupported provider, 1 otherwise). -/
def generateEmbeddings (openaiNet hfNet : String → Except String (List ℚ))
    (text provider : String) (cache : List (String × List ℚ)) :
    Except String (List ℚ) × List (String × List ℚ) × Nat :=
  match cacheLookup cache (embCacheKey provider text) with
  | some v => (.ok v, cache, 0)
  | none =>
    match (match provider with
           | "openai" => some (openaiNet text)
           | "huggingface" => some (hfNet text)
           | _ => none) with
    | none => (.error ("Embedding provider " ++ provider ++ " not supported"), cache, 0)
    | some (.ok v) => (.ok v, (embCacheKey provider text, v) :: cache, 1)
    | some (.error e) => (.error e, cache, 1)

/-- C8: if a call to the embedding generator returns a vector, a second
call with the same provider and text returns the identical vector from
the cache, leaves the cache unchanged, and dispatches no network call;
across the two calls the provider endpoint is invoked at most once. -/
theorem claim_C8 (openaiNet hfNet : String → Except String (List ℚ))
    (text provider : String) (cache : List (String × List ℚ))
    (v : List ℚ) (cache1 : List (String × List ℚ)) (n1 : Nat)
    (h : generateEmbeddings openaiNet hfNet text provider cache = (.ok v, cache1, n1)) :
    generateEmbeddings openaiNet hfNet text provider cache1 = (.ok v, cache1, 0)
    ∧ n1 + 0 ≤ 1 := by
  unfold generateEmbeddings at h ⊢
  cases hl : cacheLookup cache (embCacheKey provider text) with
  | some w =>
    rw [hl] at h
    simp only [Prod.mk.injEq, Except.ok.injEq] at h
    obtain ⟨h1, h2, h3⟩ := h
    subst h1
    subst h2
    rw [hl]
    exact ⟨rfl, by omega⟩
  | none =>
    rw [hl] at h
    cases hp : (match provider with
               | "openai" => some (openaiNet text)
               | "huggingface" => some (hfNet text)
               | _ => none) with
    | none =>
      rw [hp] at h
      simp only [Prod.mk.injEq] at h
      exact absurd h.1 (by simp)
    | some r =>
      rw [hp] at h
      cases r with
      | error e =>
        simp only [Prod.mk.injEq] at h
        exact absurd h.1 (by simp)
      | ok w =>
        simp only [Prod.mk.injEq, Except.ok.injEq] at h
        obtain ⟨h1, h2, h3⟩ := h
        have hl1 : cacheLookup ((embCacheKey provider text, w) :: cache)
            (embCacheKey provider text) = some w := by
          simp [cacheLookup, List.find?]
        rw [← h2, hl1, h1]
        exact ⟨rfl, by omega⟩

/-- Concrete instance of C8: with an OpenAI endpoint answering `[1]`, a
first call from an empty cache succeeds and a repeat call is served from
the cache with no further network call. -/
theorem claim_C8_witness :
    generateEmbeddings (fun _ => .ok [1]) (fun _ => .ok [2]) "t" "openai" []
      = (.ok [1], [("openai:t", [1])], 1)
    ∧ generateEmbeddings (fun _ => .ok [1]) (fun _ => .ok [2]) "t" "openai"
        [("openai:t", [1])] = (.ok [1], [("openai:t", [1])], 0) := by
  have hfirst : generateEmbeddings (fun _ => .ok [1]) (fun _ => .ok [2]) "t" "openai" []
      = (.ok [1], [("openai:t", [1])], 1) := by
    simp [generateEmbeddings, cacheLookup, embCacheKey]
  refine ⟨hfirst, ?_⟩
  exact (claim_C8 (fun _ => .ok [1]) (fun _ => .ok [2]) "t" "openai" []
    [1] [("openai:t", [1])] 1 hfirst).1

/-! Section: Cosine similarity (`cosineSimilarity` from `@/lib/utils`) -/

/-- Pairwise dot product of two float vectors (floats modelled as reals). -/
def dotList : List ℝ → List ℝ → ℝ
  | x :: xs, y :: ys => x * y + dotList xs ys
  | _, _ => 0

/-- Modelled from the spec: `cosineSimilarity` is imported from
`@/lib/utils`, whose source is not in the repository snapshot.  Per the
spec it is `dot(a,b) / (‖a‖ · ‖b‖)` with `‖v‖ = √(dot(v,v))`, and is
defined as 0 when either vector has zero magnitude. -/
noncomputable def cosineSimilarity (a b : List ℝ) : ℝ :=
  if dotList a a = 0 ∨ dotList b b = 0 then 0
  else dotList a b / (Real.sqrt (dotList a a) * Real.sqrt (dotList b b))

theorem dotList_comm (a : List ℝ) : ∀ b, dotList a b = dotList b a := by
  induction a with
  | nil => intro b; cases b <;> simp [dotList]
  | cons x xs ih =>
    intro b
    cases b with
    | nil => simp [dotList]
    | cons y ys => simp [dotList, ih, mul_comm]

theorem dotList_self_nonneg (a : List ℝ) : 0 ≤ dotList a a := by
  induction a with
  | nil => simp [dotList]
  | cons x xs ih => simpa [dotList] using add_nonneg (mul_self_nonneg x) ih

theorem dotList_self_pos (a : List ℝ) (h : ∃ x ∈ a, x ≠ 0) : 0 < dotList a a := by
  induction a with
  | nil => simp at h
  | cons x xs ih =>
    rcases h with ⟨y, hy, hy0⟩
    simp only [List.mem_cons] at hy
    rcases hy with rfl | hy
    · have h1 : 0 < y * y := mul_self_pos.mpr hy0
      have h2 : 0 ≤ dotList xs xs := dotList_self_nonneg xs
      simp only [dotList]
      linarith
    · have h1 : 0 < dotList xs xs := ih ⟨y, hy, hy0⟩
      have h2 : 0 ≤ x * x := mul_self_nonneg x
      simp only [dotList]
      linarith

/-- Cauchy-Schwarz for `dotList` (no length hypothesis is needed: the dot
product truncates to the common prefix while the self-products only grow). -/
theorem dotList_sq_le (a : List ℝ) : ∀ b, (dotList a b) ^ 2 ≤ dotList a a * dotList b b := by
  induction a with
  | nil =>
    intro b
    cases b <;> simp [dotList]
  | cons x xs ih =>
    intro b
    cases b with
    | nil => simp [dotList, mul_nonneg (dotList_self_nonneg (x :: xs)) (le_refl 0)]
    | cons y ys =>
      simp only [dotList]
      have hA := dotList_self_nonneg xs
      have hB := dotList_self_nonneg ys
      have hIH := ih ys
      by_cases hBz : dotList ys ys = 0
      · have hd : dotList xs ys = 0 := by
          have := ih ys
          rw [hBz, mul_zero] at this
          have h0 : (dotList xs ys) ^ 2 = 0 := le_antisymm this (sq_nonneg _)
          exact pow_eq_zero_iff (by norm_num) |>.mp h0
        rw [hBz, hd]
        have hy2 : 0 ≤ y * y := mul_self_nonneg y
        nlinarith [mul_self_nonneg x, mul_self_nonneg y, sq_nonneg (x * y)]
      · have hBpos : 0 < dotList ys ys := lt_of_le_of_ne hB (Ne.symm hBz)
        nlinarith [sq_nonneg (x * dotList ys ys - y * dotList xs ys),
          mul_nonneg hA hB, sq_nonneg y, sq_nonneg x,
          mul_nonneg (sq_nonneg y) (sub_nonneg.mpr hIH),
          mul_nonneg hB (sub_nonneg.mpr hIH)]

/-- C9: cosine similarity is symmetric, bounded in `[-1, 1]`, equals 1 on
a non-zero vector paired with itself, and equals 0 when either vector has
zero magnitude. -/
theorem claim_C9 (a b : List ℝ) (hlen : a.length = b.length) :
    cosineSimilarity a b = cosineSimilarity b a
    ∧ (-1 ≤ cosineSimilarity a b ∧ cosineSimilarity a b ≤ 1)
    ∧ (a = b → (∃ x ∈ a, x ≠ 0) → cosineSimilarity a b = 1)
    ∧ ((dotList a a = 0 ∨ dotList b b = 0) → cosineSimilarity a b = 0) := by
  refine ⟨?_, ?_, ?_, ?_⟩
  · unfold cosineSimilarity
    rw [dotList_comm a b, mul_comm]
    exact if_congr or_comm rfl rfl
  · unfold cosineSimilarity
    by_cases hz : dotList a a = 0 ∨ dotList b b = 0
    · rw [if_pos hz]; norm_num
    · rw [if_neg hz]
      push_neg at hz
      have hA : 0 < dotList a a := lt_of_le_of_ne (dotList_self_nonneg a) (Ne.symm hz.1)
      have hB : 0 < dotList b b := lt_of_le_of_ne (dotList_self_nonneg b) (Ne.symm hz.2)
      have hden : 0 < Real.sqrt (dotList a a) * Real.sqrt (dotList b b) :=
        mul_pos (Real.sqrt_pos.mpr hA) (Real.sqrt_pos.mpr hB)
      have habs : |dotList a b| ≤ Real.sqrt (dotList a a) * Real.sqrt (dotList b b) := by
        have h1 : |dotList a b| = Real.sqrt ((dotList a b) ^ 2) :=
          (Real.sqrt_sq_eq_abs _).symm
        rw [h1, ← Real.sqrt_mul (dotList_self_nonneg a)]
        exact Real.sqrt_le_sqrt (dotList_sq_le a b)
      have habs1 : |dotList a b / (Real.sqrt (dotList a a) * Real.sqrt (dotList b b))| ≤ 1 := by
        rw [abs_div, abs_of_pos hden]
        exact div_le_one_of_le₀ habs hden.le
      exact abs_le.mp habs1
  · intro hab hnz
    subst hab
    have hA : 0 < dotList a a := dotList_self_pos a hnz
    unfold cosineSimilarity
    rw [if_neg (by push_neg; exact ⟨ne_of_gt hA, ne_of_gt hA⟩)]
    rw [Real.mul_self_sqrt (dotList_self_nonneg a)]
    exact div_self (ne_of_gt hA)
  · intro hz
    unfold cosineSimilarity
    rw [if_pos hz]

/-- Concrete instance of C9: the one-dimensional vector `[1]` has cosine
similarity 1 with itself. -/
theorem claim_C9_witness : cosineSimilarity [(1 : ℝ)] [1] = 1 :=
  (claim_C9 [1] [1] rfl).2.2.1 rfl ⟨1, by simp⟩

/-! Section: Opportunities and semantic reranking (`performSemanticSearch`, lines 300-339) -/

/-- The fields of a transformed opportunity that the search subsystem
reads or writes (`id`/`title`/`description`/`synopsis` feed the embedding
text, `relevanceScore` is written by the ranker; `isFavorite` and `tags`
are caller-only annotations set by the transform).  Scores are modelled
as rationals. -/
structure SAMOpportunity where
  id : String
  title : String
  description : String
  synopsis : String
  relevanceScore : ℚ
  isFavorite : Bool
  tags : List String
deriving DecidableEq, Repr

/-- The text embedded for a candidate:
`` `${opportunity.title} ${opportunity.description} ${opportunity.synopsis}` ``. -/
def oppText (o : SAMOpportunity) : String :=
  o.title ++ " " ++ o.description ++ " " ++ o.synopsis

/-- `Promise.all` over per-element fallible computations: any rejection
rejects the whole batch. -/
def mapExcept {α β ε : Type} (f : α → Except ε β) : List α → Except ε (List β)
  | [] => .ok []
  | a :: as =>
    match f a with
    | .error e => .error e
    | .ok b =>
      match mapExcept f as with
      | .error e => .error e
      | .ok bs => .ok (b :: bs)

/-- Stable insertion into a list sorted by descending `relevanceScore`:
the element goes before the first entry whose score is at most its own. -/
def insertDesc (x : SAMOpportunity) : List SAMOpportunity → List SAMOpportunity
  | [] => [x]
  | y :: ys =>
    if y.relevanceScore ≤ x.relevanceScore then x :: y :: ys
    else y :: insertDesc x ys

/-- Stable insertion sort by descending `relevanceScore`, realising the
(ES2019-stable) `Array.prototype.sort` with comparator
`(a, b) => (b.relevanceScore || 0) - (a.relevanceScore || 0)`. -/
def sortByScoreDesc : List SAMOpportunity → List SAMOpportunity
  | [] => []
  | x :: xs => insertDesc x (sortByScoreDesc xs)

/-- `!query.trim()`: a JS string trims to the empty string exactly when
every character is whitespace, which is how we model the blank check
(keeping the definition kernel-computable). -/
def isBlankJS (s : String) : Bool := s.data.all Char.isWhitespace

/-- The fallible part of `performSemanticSearch`: embed the query, then
embed every candidate and attach its similarity score
(`Promise.all(opportunities.map ...)`). -/
def semanticScored (sim : List ℚ → List ℚ → ℚ)
    (embedFn : String → Except String (List ℚ))
    (opportunities : List SAMOpportunity) (query : String) :
    Except String (List SAMOpportunity) :=
  match embedFn query with
  | .error e => .error e
  | .ok queryEmbeddings =>
    mapExcept (fun o =>
      (embedFn (oppText o)).map
        (fun oe => { o with relevanceScore := sim queryEmbeddings oe })) opportunities

/-- `performSemanticSearch`.  `sim` abstracts `cosineSimilarity` and
`embedFn` abstracts `generateEmbeddings(·, provider, apiKey)` (including
its cache); `.error` is a rejected promise.  The `try/catch` falls back
to the original list on any embedding failure; on success the scored
list is stably sorted by descending score and truncated to the top 25. -/
def performSemanticSearch (sim : List ℚ → List ℚ → ℚ)
    (embedFn : String → Except String (List ℚ))
    (opportunities : List SAMOpportunity) (query : String) : List SAMOpportunity :=
  if isBlankJS query then opportunities
  else
    match semanticScored sim embedFn opportunities query with
    | .error _ => opportunities
    | .ok scored => (sortByScoreDesc scored).take 25

theorem performSemanticSearch_of_error (sim : List ℚ → List ℚ → ℚ)
    (embedFn : String → Except String (List ℚ))
    (opportunities : List SAMOpportunity) (query : String) (e : String)
    (hE : semanticScored sim embedFn opportunities query = .error e) :
    performSemanticSearch sim embedFn opportunities query = opportunities := by
  unfold performSemanticSearch
  by_cases hb : isBlankJS query
  · rw [if_pos hb]
  · rw [if_neg hb, hE]

theorem performSemanticSearch_of_ok (sim : List ℚ → List ℚ → ℚ)
    (embedFn : String → Except String (List ℚ))
    (opportunities : List SAMOpportunity) (query : String)
    (scored : List SAMOpportunity)
    (hb : isBlankJS query = false)
    (hE : semanticScored sim embedFn opportunities query = .ok scored) :
    performSemanticSearch sim embedFn opportunities query
      = (sortByScoreDesc scored).take 25 := by
  unfold performSemanticSearch
  rw [hb, hE]
  rfl

theorem mapExcept_error_of_mem {α β ε : Type} (f : α → Except ε β) (l : List α)
    (a : α) (ha : a ∈ l) (e : ε) (he : f a = .error e) :
    ∃ e', mapExcept f l = .error e' := by
  induction l with
  | nil => simp at ha
  | cons x xs ih =>
    simp only [List.mem_cons] at ha
    rcases ha with rfl | ha
    · exact ⟨e, by simp [mapExcept, he]⟩
    · cases hx : f x with
      | error e0 => exact ⟨e0, by simp [mapExcept, hx]⟩
      | ok b =>
        obtain ⟨e', he'⟩ := ih ha
        exact ⟨e', by simp [mapExcept, hx, he']⟩

theorem filter_score_insertDesc (s : ℚ) (x : SAMOpportunity) (l : List SAMOpportunity) :
    (insertDesc x l).filter (fun o => decide (o.relevanceScore = s))
    = if x.relevanceScore = s
      then x :: l.filter (fun o => decide (o.relevanceScore = s))
      else l.filter (fun o => decide (o.relevanceScore = s)) := by
  induction l with
  | nil =>
    by_cases hx : x.relevanceScore = s <;> simp [insertDesc, List.filter, hx]
  | cons y ys ih =>
    by_cases hc : y.relevanceScore ≤ x.relevanceScore
    · rw [insertDesc, if_pos hc]
      by_cases hx : x.relevanceScore = s <;> by_cases hy : y.relevanceScore = s <;>
        simp [List.filter_cons, hx, hy]
    · rw [insertDesc, if_neg hc]
      have hgt : x.relevanceScore < y.relevanceScore := lt_of_not_le hc
      by_cases hx : x.relevanceScore = s
      · have hy : ¬ y.relevanceScore = s := by
          intro hys
          rw [hx] at hgt
          rw [hys] at hgt
          exact lt_irrefl s hgt
        simp [List.filter_cons, hy, ih, hx]
      · by_cases hy : y.relevanceScore = s <;> simp [List.filter_cons, hy, ih, hx]

theorem filter_score_sortByScoreDesc (s : ℚ) (l : List SAMOpportunity) :
    (sortByScoreDesc l).filter (fun o => decide (o.relevanceScore = s))
    = l.filter (fun o => decide (o.relevanceScore = s)) := by
  induction l with
  | nil => rfl
  | cons x xs ih =>
    simp only [sortByScoreDesc, filter_score_insertDesc]
    by_cases hx : x.relevanceScore = s <;> simp [List.filter, hx, ih]

theorem mem_insertDesc (z x : SAMOpportunity) (l : List SAMOpportunity) :
    z ∈ insertDesc x l ↔ z = x ∨ z ∈ l := by
  induction l with
  | nil => simp [insertDesc]
  | cons y ys ih =>
    by_cases hc : y.relevanceScore ≤ x.relevanceScore
    · simp [insertDesc, if_pos hc]
    · simp only [insertDesc, if_neg hc, List.mem_cons, ih]
      tauto

theorem pairwise_insertDesc (x : SAMOpportunity) (l : List SAMOpportunity)
    (h : l.Pairwise (fun a b => b.relevanceScore ≤ a.relevanceScore)) :
    (insertDesc x l).Pairwise (fun a b => b.relevanceScore ≤ a.relevanceScore) := by
  induction l with
  | nil => simp [insertDesc]
  | cons y ys ih =>
    rcases List.pairwise_cons.mp h with ⟨hy, hys⟩
    by_cases hc : y.relevanceScore ≤ x.relevanceScore
    · rw [insertDesc, if_pos hc]
      refine List.pairwise_cons.mpr ⟨?_, h⟩
      intro z hz
      simp only [List.mem_cons] at hz
      rcases hz with rfl | hz
      · exact hc
      · exact le_trans (hy z hz) hc
    · rw [insertDesc, if_neg hc]
      refine List.pairwise_cons.mpr ⟨?_, ih hys⟩
      intro z hz
      rcases (mem_insertDesc z x ys).mp hz with rfl | hz
      · exact le_of_lt (lt_of_not_le hc)
      · exact hy z hz

theorem pairwise_sortByScoreDesc (l : List SAMOpportunity) :
    (sortByScoreDesc l).Pairwise (fun a b => b.relevanceScore ≤ a.relevanceScore) := by
  induction l with
  | nil => simp [sortByScoreDesc]
  | cons x xs ih => exact pairwise_insertDesc x _ ih

/-- Any embedding failure (query or candidate) fails `semanticScored`. -/
theorem semanticScored_error (sim : List ℚ → List ℚ → ℚ)
    (embedFn : String → Except String (List ℚ))
    (opportunities : List SAMOpportunity) (query : String)
    (hfail : (∃ e, embedFn query = .error e)
      ∨ ∃ o ∈ opportunities, ∃ e, embedFn (oppText o) = .error e) :
    ∃ e, semanticScored sim embedFn opportunities query = .error e := by
  cases hq : embedFn query with
  | error e => exact ⟨e, by unfold semanticScored; rw [hq]⟩
  | ok qe =>
    rcases hfail with ⟨e, he⟩ | ⟨o, ho, e, he⟩
    · rw [hq] at he
      exact absurd he (fun h => Except.noConfusion h)
    · obtain ⟨e', he'⟩ := mapExcept_error_of_mem
        (fun o => (embedFn (oppText o)).map
          (fun oe => { o with relevanceScore := sim qe oe })) opportunities o ho e
        (by show (embedFn (oppText o)).map _ = _; rw [he]; rfl)
      refine ⟨e', ?_⟩
      unfold semanticScored
      rw [hq]
      exact he'

theorem mapExcept_ok_map {α β ε γ : Type} (f : α → Except ε β) (g : β → γ) (g' : α → γ)
    (hg : ∀ a b, f a = .ok b → g b = g' a) :
    ∀ (l : List α) (bs : List β), mapExcept f l = .ok bs → bs.map g = l.map g' := by
  intro l
  induction l with
  | nil =>
    intro bs h
    simp [mapExcept] at h
    subst h
    simp
  | cons x xs ih =>
    intro bs h
    simp only [mapExcept] at h
    cases hx : f x with
    | error e => rw [hx] at h; exact absurd h (fun h0 => Except.noConfusion h0)
    | ok b =>
      rw [hx] at h
      cases hxs : mapExcept f xs with
      | error e => rw [hxs] at h; exact absurd h (fun h0 => Except.noConfusion h0)
      | ok bs0 =>
        rw [hxs] at h
        simp only [Except.ok.injEq] at h
        subst h
        simp only [List.map_cons]
        rw [hg x b hx, ih bs0 hxs]

/-- Erase the ranker-written score, for comparing candidate identity and
order while ignoring scores. -/
def eraseScore (o : SAMOpportunity) : SAMOpportunity := { o with relevanceScore := 0 }

/-- Shared helper: any embedding failure (query or any candidate) makes
`performSemanticSearch` return the original list unchanged. -/
theorem performSemanticSearch_embed_error (sim : List ℚ → List ℚ → ℚ)
    (embedFn : String → Except String (List ℚ))
    (opportunities : List SAMOpportunity) (query : String)
    (hfail : (∃ e, embedFn query = .error e)
      ∨ ∃ o ∈ opportunities, ∃ e, embedFn (oppText o) = .error e) :
    performSemanticSearch sim embedFn opportunities query = opportunities := by
  obtain ⟨e, hE⟩ := semanticScored_error sim embedFn opportunities query hfail
  exact performSemanticSearch_of_error sim embedFn opportunities query e hE

/-- C6: when semantic reranking runs to completion (non-blank query, all
embeddings succeed, producing the scored list `scored` in upstream
order), the output is the 25-element (or shorter) prefix of the stable
descending sort of `scored`: its length is at most 25, it is sorted by
non-increasing `relevanceScore`, equal-score candidates keep their
relative upstream order (filtering the sorted list by any score value
yields exactly the input's subsequence for that value), and `scored`
itself is the upstream list with only scores changed. -/
theorem claim_C6 (sim : List ℚ → List ℚ → ℚ)
    (embedFn : String → Except String (List ℚ))
    (opportunities : List SAMOpportunity) (query : String)
    (qe : List ℚ) (scored : List SAMOpportunity)
    (hb : isBlankJS query = false)
    (hq : embedFn query = .ok qe)
    (hs : mapExcept (fun o =>
        (embedFn (oppText o)).map
          (fun oe => { o with relevanceScore := sim qe oe })) opportunities = .ok scored) :
    performSemanticSearch sim embedFn opportunities query = (sortByScoreDesc scored).take 25
    ∧ (performSemanticSearch sim embedFn opportunities query).length ≤ 25
    ∧ (performSemanticSearch sim embedFn opportunities query).Pairwise
        (fun a b => b.relevanceScore ≤ a.relevanceScore)
    ∧ (∀ s : ℚ, (sortByScoreDesc scored).filter (fun o => decide (o.relevanceScore = s))
        = scored.filter (fun o => decide (o.relevanceScore = s)))
    ∧ scored.map eraseScore = opportunities.map eraseScore := by
  have hE : semanticScored sim embedFn opportunities query = .ok scored := by
    unfold semanticScored
    rw [hq]
    exact hs
  have hrun := performSemanticSearch_of_ok sim embedFn opportunities query scored hb hE
  refine ⟨hrun, ?_, ?_, ?_, ?_⟩
  · rw [hrun]
    exact List.length_take_le 25 _
  · rw [hrun]
    exact (pairwise_sortByScoreDesc scored).sublist (List.take_sublist 25 _)
  · exact fun s => filter_score_sortByScoreDesc s scored
  · refine mapExcept_ok_map _ eraseScore eraseScore ?_ opportunities scored hs
    intro a b hab
    cases hfa : embedFn (oppText a) with
    | error e => rw [hfa] at hab; exact absurd hab (fun h => Except.noConfusion h)
    | ok oe =>
      rw [hfa] at hab
      have hb' := Except.ok.inj hab
      rw [← hb']
      rfl

/-- Concrete candidates for witnesses. -/
def oppA : SAMOpportunity := ⟨"a", "ta", "da", "sa", 0, false, []⟩

/-- Concrete candidates for witnesses. -/
def oppB : SAMOpportunity := ⟨"b", "tb", "db", "sb", 0, false, []⟩

/-- Concrete instance of C6: a completed rerank of two candidates with a
constant similarity keeps both (stably, in order) within the top-25 cap. -/
theorem claim_C6_witness :
    performSemanticSearch (fun _ _ => (1 : ℚ)) (fun _ => .ok []) [oppA, oppB] "x"
      = [⟨"a", "ta", "da", "sa", 1, false, []⟩, ⟨"b", "tb", "db", "sb", 1, false, []⟩]
    ∧ (performSemanticSearch (fun _ _ => (1 : ℚ)) (fun _ => .ok []) [oppA, oppB] "x").length
        ≤ 25 := by
  have h := claim_C6 (fun _ _ => (1 : ℚ)) (fun _ => .ok []) [oppA, oppB] "x" []
    [⟨"a", "ta", "da", "sa", 1, false, []⟩, ⟨"b", "tb", "db", "sb", 1, false, []⟩]
    (by decide) rfl (by rfl)
  refine ⟨?_, h.2.1⟩
  rw [h.1]
  rfl

/-! Section: Search filters and upstream parameters (lines 136-295, 426-452) -/

/-- JS `v || d` on an optional number: `undefined` and `NaN` are modelled
as `none`; `0` is falsy. -/
def jsOrInt (v : Option Int) (d : Int) : Int :=
  match v with
  | some n => if n = 0 then d else n
  | none => d

/-- JS `x || undefined` on an optional string: the empty string is falsy. -/
def jsOrUndefStr : Option String → Option String
  | some s => if s = "" then none else some s
  | none => none

/-- JS string truthiness of an optional string. -/
def strPresent : Option String → Bool
  | some s => !(s == "")
  | none => false

/-- The `SAMSearchFilters` value built by `GET` (nested
`responseDeadline`/`estimatedValue` objects are flattened). -/
structure SAMSearchFilters where
  keyword : Option String
  startDate : Option String
  endDate : Option String
  naicsCode : Option String
  state : Option String
  agency : Option String
  type : Option String
  setAside : Option String
  active : Option Bool
  limit : Option Int
  offset : Option Int
  entityName : Option String
  contractVehicle : Option String
  classificationCode : Option String
  fundingSource : Option String
  responseDeadlineFrom : Option String
  responseDeadlineTo : Option String
  estimatedValueMin : Option ℚ
  estimatedValueMax : Option ℚ
  hasAttachments : Option Bool
deriving DecidableEq, Repr

/-- One optional string parameter: `if (filters.x) params.append(k, x)`. -/
def optStr (k : String) (v : Option String) : List (String × String) :=
  match v with
  | some s => if s = "" then [] else [(k, s)]
  | none => []

/-- One optional numeric parameter: `if (filters.x) append(k, x.toString())`
(`0` is falsy in JS, so a zero bound is omitted). -/
def optRat (k : String) (v : Option ℚ) : List (String × String) :=
  match v with
  | some q => if q = 0 then [] else [(k, toString q)]
  | none => []

/-- `if (filters.active !== undefined) append('active', active.toString())`. -/
def activeParam : Option Bool → List (String × String)
  | some b => [("active", if b then "true" else "false")]
  | none => []

/-- `if (filters.hasAttachments) append('hasAttachments', 'true')`. -/
def hasAttachParam : Option Bool → List (String × String)
  | some true => [("hasAttachments", "true")]
  | _ => []

/-- The upstream query parameters built by `searchSAMOpportunities`
(lines 145-226), in append order. -/
def genParams (f : SAMSearchFilters) : List (String × String) :=
  optStr "q" f.keyword
  ++ optStr "postedFrom" f.startDate
  ++ optStr "postedTo" f.endDate
  ++ optStr "naicsCode" f.naicsCode
  ++ optStr "state" f.state
  ++ optStr "agency" f.agency
  ++ optStr "noticeType" f.type
  ++ optStr "setAside" f.setAside
  ++ activeParam f.active
  ++ optStr "entityName" f.entityName
  ++ optStr "contractVehicle" f.contractVehicle
  ++ optStr "classificationCode" f.classificationCode
  ++ optStr "fundingSource" f.fundingSource
  ++ optStr "responseDeadlineFrom" f.responseDeadlineFrom
  ++ optStr "responseDeadlineTo" f.responseDeadlineTo
  ++ optRat "estimatedValueMin" f.estimatedValueMin
  ++ optRat "estimatedValueMax" f.estimatedValueMax
  ++ hasAttachParam f.hasAttachments
  ++ [("limit", toString (min (jsOrInt f.limit 50) 100)),
      ("offset", toString (jsOrInt f.offset 0)),
      ("includeCount", "true"),
      ("format", "json")]

/-- `URLSearchParams.get`-style lookup on the built parameter list. -/
def lookupParam (ps : List (String × String)) (k : String) : Option String :=
  (ps.find? (fun e => decide (e.1 = k))).map Prod.snd

/-- The fields of a raw upstream listing that the transform (lines
266-293) reads non-trivially; the pass-through fields are omitted. -/
structure RawOpportunity where
  noticeId : Option String
  solicitationNumber : String
  title : String
  description : Option String
  synopsis : Option String
deriving DecidableEq, Repr

/-- The transform of one raw listing into a `SAMOpportunity`:
`id := noticeId || solicitationNumber`, missing description/synopsis
default to `''`, `relevanceScore := 0`, `isFavorite := false`,
`tags := []`. -/
def transformOpportunity (o : RawOpportunity) : SAMOpportunity :=
  { id := match o.noticeId with
          | some n => if n = "" then o.solicitationNumber else n
          | none => o.solicitationNumber
  , title := o.title
  , description := o.description.getD ""
  , synopsis := o.synopsis.getD ""
  , relevanceScore := 0
  , isFavorite := false
  , tags := [] }

/-- A successful upstream response body: `opportunitiesData` may be
absent (`data.opportunitiesData?.map(...) || []`); `totalRecords` is the
count the upstream reports (requested via `includeCount=true`) which the
route never reads. -/
structure UpstreamPayload where
  opportunitiesData : Option (List RawOpportunity)
  totalRecords : Nat
deriving DecidableEq, Repr

/-- A failed upstream response (lines 245-261): status, status text, raw
body text, and the `errorMessage` field when the body parses as JSON
carrying one. -/
structure UpstreamFailure where
  status : Nat
  statusText : String
  bodyText : String
  errorMessageField : Option String
deriving DecidableEq, Repr

/-- The error message thrown for a failed upstream fetch. -/
def samErrorMessage (uf : UpstreamFailure) : String :=
  let base := "SAM.gov API error: " ++ toString uf.status ++ " " ++ uf.statusText
  match uf.errorMessageField with
  | some m => base ++ " - " ++ m
  | none => base ++ " - " ++ uf.bodyText

/-! Section: Response cache layers and the `GET` handler (lines 344-539) -/

/-- Modelled from the spec: `withCache` from `@/lib/redis` (its source is
not in the repository snapshot).  `getOrCompute(fingerprint, ttl,
compute)`: a live hit returns the stored payload without running
`compute`; on miss or expiry it runs `compute`, stores a successful
result under the current timestamp, and propagates failures uncached.
The key is the filter value itself (the real fingerprint is its
deterministic serialization, so equal filters give equal keys).  The
`Bool` reports whether `compute` ran. -/
def withCache {κ α : Type} [DecidableEq κ] (cache : List (κ × α × Nat)) (key : κ)
    (ttl now : Nat) (compute : Except String α) :
    Except String α × List (κ × α × Nat) × Bool :=
  match cacheLookup cache key with
  | some entry =>
    if now - entry.2 < ttl then (.ok entry.1, cache, false)
    else
      match compute with
      | .ok v => (.ok v, (key, v, now) :: cache, true)
      | .error e => (.error e, cache, true)
  | none =>
    match compute with
    | .ok v => (.ok v, (key, v, now) :: cache, true)
    | .error e => (.error e, cache, true)

/-- The 30-minute TTL `searchSAMOpportunities` passes to `withCache`
(`ttl: 1800` seconds), in the model's millisecond clock. -/
def SAM_SEARCH_TTL : Nat := 1800000

abbrev RedisCache := List (SAMSearchFilters × List SAMOpportunity × Nat)

/-- `searchSAMOpportunities`: wrap the upstream fetch in the redis-backed
cache.  `upstream` is the outcome the fetch would produce if performed;
a failure throws `samErrorMessage`, a success maps the raw listings
through the transform (absent `opportunitiesData` yields `[]`). -/
def searchSAMOpportunities (filters : SAMSearchFilters) (redisCache : RedisCache)
    (now : Nat) (upstream : Except UpstreamFailure UpstreamPayload) :
    Except String (List SAMOpportunity) × RedisCache × Bool :=
  withCache redisCache filters SAM_SEARCH_TTL now
    (match upstream with
     | .error uf => .error (samErrorMessage uf)
     | .ok p => .ok ((p.opportunitiesData.getD []).map transformOpportunity))

/-- The raw query parameters of a `GET` request
(`searchParams.get(...)`; `none` is an absent parameter), plus the
`authorization` header. -/
structure QueryParams where
  q : Option String
  startDate : Option String
  endDate : Option String
  naicsCode : Option String
  state : Option String
  agency : Option String
  type : Option String
  setAside : Option String
  active : Option String
  limit : Option String
  offset : Option String
  semantic : Option String
  provider : Option String
  samApiKey : Option String
  entityName : Option String
  contractVehicle : Option String
  classificationCode : Option String
  fundingSource : Option String
  responseDeadlineFrom : Option String
  responseDeadlineTo : Option String
  estimatedValueMin : Option String
  estimatedValueMax : Option String
  hasAttachments : Option String
  authorization : Option String
deriving DecidableEq, Repr

/-- The request-independent environment of one `GET` call: JS built-ins
that the model leaves abstract (`normalizeDate`'s generic-date branch,
`parseInt`, `parseFloat` — `none` models `undefined`/`NaN`), the
precomputed default date window, the outcome the upstream fetch would
have, the embedding/similarity functions, and `Date.now()`. -/
structure GetEnv where
  normalizeDate : String → Option String
  parseIntJS : String → Option Int
  parseFloatJS : String → Option ℚ
  defaultStartDate : String
  defaultEndDate : String
  upstream : Except UpstreamFailure UpstreamPayload
  sim : List ℚ → List ℚ → ℚ
  embedFn : String → Except String (List ℚ)
  now : Nat

/-- `normalizeDate` applied to a raw parameter, including the
`if (!dateStr) return undefined` guard. -/
def normDate (env : GetEnv) : Option String → Option String
  | some s => if s = "" then none else env.normalizeDate s
  | none => none

/-- The filter object `GET` builds (lines 426-452). -/
def buildFilters (env : GetEnv) (qp : QueryParams) : SAMSearchFilters :=
  { keyword := jsOrUndefStr qp.q
  , startDate := some ((jsOrUndefStr (normDate env qp.startDate)).getD env.defaultStartDate)
  , endDate := some ((jsOrUndefStr (normDate env qp.endDate)).getD env.defaultEndDate)
  , naicsCode := jsOrUndefStr qp.naicsCode
  , state := jsOrUndefStr qp.state
  , agency := jsOrUndefStr qp.agency
  , type := jsOrUndefStr qp.type
  , setAside := jsOrUndefStr qp.setAside
  , active := some (decide (qp.active = some "true"))
  , limit := match qp.limit with
             | some s => if s = "" then some 50 else env.parseIntJS s
             | none => some 50
  , offset := match qp.offset with
              | some s => if s = "" then some 0 else env.parseIntJS s
              | none => some 0
  , entityName := jsOrUndefStr qp.entityName
  , contractVehicle := jsOrUndefStr qp.contractVehicle
  , classificationCode := jsOrUndefStr qp.classificationCode
  , fundingSource := jsOrUndefStr qp.fundingSource
  , responseDeadlineFrom := jsOrUndefStr (normDate env qp.responseDeadlineFrom)
  , responseDeadlineTo := jsOrUndefStr (normDate env qp.responseDeadlineTo)
  , estimatedValueMin := match qp.estimatedValueMin with
                         | some s => if s = "" then none else env.parseFloatJS s
                         | none => none
  , estimatedValueMax := match qp.estimatedValueMax with
                         | some s => if s = "" then none else env.parseFloatJS s
                         | none => none
  , hasAttachments := some (decide (qp.hasAttachments = some "true")) }

/-- The `SAMSearchResponse` payload assembled on success (lines 500-511);
the four facet lists are always empty placeholders. -/
structure SAMSearchResponse where
  opportunities : List SAMOpportunity
  totalRecords : Nat
  limit : Int
  offset : Int
  facetsNaicsCodes : List String
  facetsStates : List String
  facetsAgencies : List String
  facetsTypes : List String
deriving DecidableEq, Repr

/-- The JSON body and status of a handler response; absent JSON fields
are `none`. -/
structure ApiResponse where
  status : Nat
  success : Option Bool
  data : Option SAMSearchResponse
  cached : Option Bool
  error : Option String
  timestamp : Option Nat
deriving DecidableEq, Repr

abbrev SearchResultsCache := List (SAMSearchFilters × SAMSearchResponse × Nat)

/-- `CACHE_DURATION = 5 * 60 * 1000`. -/
def CACHE_DURATION : Nat := 300000

/-- The observable outcome of one `GET` call: the response, both cache
states afterwards, the caller's rate-window entry afterwards, and
whether the upstream fetch was performed. -/
structure GetResult where
  response : ApiResponse
  searchResultsCache : SearchResultsCache
  redisCache : RedisCache
  rateWindow : RateWindow
  upstreamCalled : Bool
deriving DecidableEq, Repr

/-- Drop the first occurrence of `pat` if it starts here. -/
def dropPat : List Char → List Char → Option (List Char)
  | [], rest => some rest
  | _ :: _, [] => none
  | p :: ps, c :: cs => if p = c then dropPat ps cs else none

/-- Remove the first occurrence of `pat` from the list. -/
def removeFirst (pat : List Char) : List Char → List Char
  | [] => []
  | c :: cs =>
    match dropPat pat (c :: cs) with
    | some rest => rest
    | none => c :: removeFirst pat cs

/-- `authHeader.replace('Bearer ', '')` (JS `replace` with a string
pattern removes only the first occurrence). -/
def stripBearer (s : String) : String := ⟨removeFirst "Bearer ".data s.data⟩

/-- The success payload (line 500-511): the possibly reranked list, the
pre-rerank count, the unclamped echoed limit/offset, empty facets. -/
def buildPayload (filters : SAMSearchFilters)
    (opportunities finalOpportunities : List SAMOpportunity) : SAMSearchResponse :=
  { opportunities := finalOpportunities
  , totalRecords := opportunities.length
  , limit := jsOrInt filters.limit 50
  , offset := jsOrInt filters.offset 0
  , facetsNaicsCodes := []
  , facetsStates := []
  , facetsAgencies := []
  , facetsTypes := [] }

/-- Lines 468-521: the cache-miss continuation of `GET` — fetch through
the redis layer, optionally rerank, assemble the payload, store it in
the in-memory search-results cache, and respond; an upstream throw is
caught and answered with status 500 and the error message (the
search-results cache is not touched on that path). -/
def freshSearch (env : GetEnv) (qp : QueryParams) (filters : SAMSearchFilters)
    (rw : RateWindow) (srCache : SearchResultsCache) (redisCache : RedisCache) : GetResult :=
  match searchSAMOpportunities filters redisCache env.now env.upstream with
  | (.error msg, redis2, fetched) =>
    { response := { status := 500, success := none, data := none, cached := none,
                    error := some msg, timestamp := some env.now }
    , searchResultsCache := srCache
    , redisCache := redis2
    , rateWindow := rw
    , upstreamCalled := fetched }
  | (.ok opportunities, redis2, fetched) =>
    let llmApiKey := qp.authorization.map stripBearer
    let finalOpportunities :=
      if qp.semantic = some "true" ∧ strPresent qp.q = true ∧ strPresent llmApiKey = true then
        performSemanticSearch env.sim env.embedFn opportunities (qp.q.getD "")
      else opportunities
    let payload := buildPayload filters opportunities finalOpportunities
    { response := { status := 200, success := some true, data := some payload,
                    cached := none, error := none, timestamp := some env.now }
    , searchResultsCache := (filters, payload, env.now) :: srCache
    , redisCache := redis2
    , rateWindow := rw
    , upstreamCalled := fetched }

/-- The `GET` handler (lines 344-539) for one client: rate-limit check,
required-credential check, in-memory cache probe, then `freshSearch`. -/
def handleGET (env : GetEnv) (qp : QueryParams) (rw0 : Option RateWindow)
    (srCache : SearchResultsCache) (redisCache : RedisCache) : GetResult :=
  let c := checkSAMRateLimit rw0 env.now
  match c.1 with
  | false =>
    { response := { status := 429, success := none, data := none, cached := none,
                    error := some "Rate limit exceeded. Please try again later.",
                    timestamp := none }
    , searchResultsCache := srCache, redisCache := redisCache, rateWindow := c.2
    , upstreamCalled := false }
  | true =>
    match strPresent qp.samApiKey with
    | false =>
      { response := { status := 400, success := none, data := none, cached := none,
                      error := some "SAM API key is required", timestamp := none }
      , searchResultsCache := srCache, redisCache := redisCache, rateWindow := c.2
      , upstreamCalled := false }
    | true =>
      let filters := buildFilters env qp
      match cacheLookup srCache filters with
      | some entry =>
        if env.now - entry.2 < CACHE_DURATION then
          { response := { status := 200, success := some true, data := some entry.1,
                          cached := some true, error := none, timestamp := some env.now }
          , searchResultsCache := srCache, redisCache := redisCache, rateWindow := c.2
          , upstreamCalled := false }
        else freshSearch env qp filters c.2 srCache redisCache
      | none => freshSearch env qp filters c.2 srCache redisCache

/-- A cache has no live entry for a key (missing, or present but
expired): exactly the condition under which the compute path runs. -/
def cacheMissOrStale {κ α : Type} [DecidableEq κ] (cache : List (κ × α × Nat)) (key : κ)
    (ttl now : Nat) : Bool :=
  match cacheLookup cache key with
  | some entry => ! decide (now - entry.2 < ttl)
  | none => true

theorem withCache_hit {κ α : Type} [DecidableEq κ] (cache : List (κ × α × Nat)) (key : κ)
    (ttl now : Nat) (compute : Except String α) (v : α) (t : Nat)
    (hl : cacheLookup cache key = some (v, t)) (hf : now - t < ttl) :
    withCache cache key ttl now compute = (.ok v, cache, false) := by
  unfold withCache
  rw [hl]
  simp only [if_pos hf]

theorem withCache_ok {κ α : Type} [DecidableEq κ] (cache : List (κ × α × Nat)) (key : κ)
    (ttl now : Nat) (v : α)
    (h : cacheMissOrStale cache key ttl now = true) :
    withCache cache key ttl now (.ok v) = (.ok v, (key, v, now) :: cache, true) := by
  unfold withCache
  unfold cacheMissOrStale at h
  cases hl : cacheLookup cache key with
  | none => rfl
  | some entry =>
    rw [hl] at h
    simp only [Bool.not_eq_true', decide_eq_false_iff_not] at h
    simp only [if_neg h]

theorem withCache_err {κ α : Type} [DecidableEq κ] (cache : List (κ × α × Nat)) (key : κ)
    (ttl now : Nat) (e : String)
    (h : cacheMissOrStale cache key ttl now = true) :
    withCache cache key ttl now (.error e) = (Except.error (α := α) e, cache, true) := by
  unfold withCache
  unfold cacheMissOrStale at h
  cases hl : cacheLookup cache key with
  | none => rfl
  | some entry =>
    rw [hl] at h
    simp only [Bool.not_eq_true', decide_eq_false_iff_not] at h
    simp only [if_neg h]

theorem searchSAMOpportunities_err (filters : SAMSearchFilters) (redisCache : RedisCache)
    (now : Nat) (uf : UpstreamFailure)
    (h : cacheMissOrStale redisCache filters SAM_SEARCH_TTL now = true) :
    searchSAMOpportunities filters redisCache now (.error uf)
      = (.error (samErrorMessage uf), redisCache, true) := by
  unfold searchSAMOpportunities
  exact withCache_err redisCache filters SAM_SEARCH_TTL now (samErrorMessage uf) h

theorem searchSAMOpportunities_ok (filters : SAMSearchFilters) (redisCache : RedisCache)
    (now : Nat) (p : UpstreamPayload)
    (h : cacheMissOrStale redisCache filters SAM_SEARCH_TTL now = true) :
    searchSAMOpportunities filters redisCache now (.ok p)
      = (.ok ((p.opportunitiesData.getD []).map transformOpportunity),
         (filters, (p.opportunitiesData.getD []).map transformOpportunity, now) :: redisCache,
         true) := by
  unfold searchSAMOpportunities
  exact withCache_ok redisCache filters SAM_SEARCH_TTL now _ h

theorem handleGET_rateLimited (env : GetEnv) (qp : QueryParams) (rw0 : Option RateWindow)
    (srCache : SearchResultsCache) (redisCache : RedisCache)
    (hA : (checkSAMRateLimit rw0 env.now).1 = false) :
    handleGET env qp rw0 srCache redisCache
      = { response := { status := 429, success := none, data := none, cached := none,
                        error := some "Rate limit exceeded. Please try again later.",
                        timestamp := none }
        , searchResultsCache := srCache, redisCache := redisCache
        , rateWindow := (checkSAMRateLimit rw0 env.now).2
        , upstreamCalled := false } := by
  unfold handleGET
  simp only [hA]

theorem handleGET_badKey (env : GetEnv) (qp : QueryParams) (rw0 : Option RateWindow)
    (srCache : SearchResultsCache) (redisCache : RedisCache)
    (hA : (checkSAMRateLimit rw0 env.now).1 = true)
    (hK : strPresent qp.samApiKey = false) :
    handleGET env qp rw0 srCache redisCache
      = { response := { status := 400, success := none, data := none, cached := none,
                        error := some "SAM API key is required", timestamp := none }
        , searchResultsCache := srCache, redisCache := redisCache
        , rateWindow := (checkSAMRateLimit rw0 env.now).2
        , upstreamCalled := false } := by
  unfold handleGET
  simp only [hA, hK]

theorem handleGET_cacheHit (env : GetEnv) (qp : QueryParams) (rw0 : Option RateWindow)
    (srCache : SearchResultsCache) (redisCache : RedisCache)
    (payload : SAMSearchResponse) (t : Nat)
    (hA : (checkSAMRateLimit rw0 env.now).1 = true)
    (hK : strPresent qp.samApiKey = true)
    (hl : cacheLookup srCache (buildFilters env qp) = some (payload, t))
    (hf : env.now - t < CACHE_DURATION) :
    handleGET env qp rw0 srCache redisCache
      = { response := { status := 200, success := some true, data := some payload,
                        cached := some true, error := none, timestamp := some env.now }
        , searchResultsCache := srCache, redisCache := redisCache
        , rateWindow := (checkSAMRateLimit rw0 env.now).2
        , upstreamCalled := false } := by
  unfold handleGET
  simp only [hA, hK, hl]
  simp only [if_pos hf]

theorem handleGET_fresh (env : GetEnv) (qp : QueryParams) (rw0 : Option RateWindow)
    (srCache : SearchResultsCache) (redisCache : RedisCache)
    (hA : (checkSAMRateLimit rw0 env.now).1 = true)
    (hK : strPresent qp.samApiKey = true)
    (hSr : cacheMissOrStale srCache (buildFilters env qp) CACHE_DURATION env.now = true) :
    handleGET env qp rw0 srCache redisCache
      = freshSearch env qp (buildFilters env qp) (checkSAMRateLimit rw0 env.now).2
          srCache redisCache := by
  unfold handleGET
  simp only [hA, hK]
  unfold cacheMissOrStale at hSr
  cases hl : cacheLookup srCache (buildFilters env qp) with
  | none => rfl
  | some entry =>
    rw [hl] at hSr
    simp only [Bool.not_eq_true', decide_eq_false_iff_not] at hSr
    simp only [if_neg hSr]

theorem freshSearch_of_err (env : GetEnv) (qp : QueryParams) (filters : SAMSearchFilters)
    (rw : RateWindow) (srCache : SearchResultsCache) (redisCache : RedisCache)
    (msg : String) (redis2 : RedisCache) (fetched : Bool)
    (h : searchSAMOpportunities filters redisCache env.now env.upstream
      = (.error msg, redis2, fetched)) :
    freshSearch env qp filters rw srCache redisCache
      = { response := { status := 500, success := none, data := none, cached := none,
                        error := some msg, timestamp := some env.now }
        , searchResultsCache := srCache
        , redisCache := redis2
        , rateWindow := rw
        , upstreamCalled := fetched } := by
  unfold freshSearch
  rw [h]

theorem freshSearch_of_ok (env : GetEnv) (qp : QueryParams) (filters : SAMSearchFilters)
    (rw : RateWindow) (srCache : SearchResultsCache) (redisCache : RedisCache)
    (opps : List SAMOpportunity) (redis2 : RedisCache) (fetched : Bool)
    (h : searchSAMOpportunities filters redisCache env.now env.upstream
      = (.ok opps, redis2, fetched)) :
    freshSearch env qp filters rw srCache redisCache
      = (let finalOpportunities :=
           if qp.semantic = some "true" ∧ strPresent qp.q = true
               ∧ strPresent (qp.authorization.map stripBearer) = true then
             performSemanticSearch env.sim env.embedFn opps (qp.q.getD "")
           else opps
         let payload := buildPayload filters opps finalOpportunities
         { response := { status := 200, success := some true, data := some payload,
                         cached := none, error := none, timestamp := some env.now }
         , searchResultsCache := (filters, payload, env.now) :: srCache
         , redisCache := redis2
         , rateWindow := rw
         , upstreamCalled := fetched }) := by
  unfold freshSearch
  rw [h]

/-! Section: Which parameters are sent upstream, per field -/

/-- The string the numeric-bound parameter carries, when it is sent. -/
def ratParamValue (v : Option ℚ) : Option String :=
  match v with
  | some q => if q = 0 then none else some (toString q)
  | none => none

theorem find?_optStr_ne (k k' : String) (v : Option String) (h : ¬ k = k') :
    (optStr k v).find? (fun e => decide (e.1 = k')) = none := by
  cases v with
  | none => rfl
  | some s => by_cases hs : s = "" <;> simp [optStr, hs, h]

theorem find?_optStr_self (k : String) (v : Option String) :
    (optStr k v).find? (fun e => decide (e.1 = k))
      = (jsOrUndefStr v).map (fun s => (k, s)) := by
  cases v with
  | none => rfl
  | some s => by_cases hs : s = "" <;> simp [optStr, jsOrUndefStr, hs]

theorem find?_optRat_ne (k k' : String) (v : Option ℚ) (h : ¬ k = k') :
    (optRat k v).find? (fun e => decide (e.1 = k')) = none := by
  cases v with
  | none => rfl
  | some q => by_cases hq : q = 0 <;> simp [optRat, hq, h]

theorem find?_optRat_self (k : String) (v : Option ℚ) :
    (optRat k v).find? (fun e => decide (e.1 = k))
      = (ratParamValue v).map (fun s => (k, s)) := by
  cases v with
  | none => rfl
  | some q => by_cases hq : q = 0 <;> simp [optRat, ratParamValue, hq]

theorem find?_activeParam_ne (k' : String) (v : Option Bool) (h : ¬ "active" = k') :
    (activeParam v).find? (fun e => decide (e.1 = k')) = none := by
  cases v with
  | none => rfl
  | some b => simp [activeParam, h]

theorem find?_activeParam_self (v : Option Bool) :
    (activeParam v).find? (fun e => decide (e.1 = "active"))
      = v.map (fun b => ("active", if b then "true" else "false")) := by
  cases v with
  | none => rfl
  | some b => simp [activeParam]

theorem find?_hasAttachParam_ne (k' : String) (v : Option Bool)
    (h : ¬ "hasAttachments" = k') :
    (hasAttachParam v).find? (fun e => decide (e.1 = k')) = none := by
  cases v with
  | none => rfl
  | some b => cases b <;> simp [hasAttachParam, h]

theorem find?_hasAttachParam_self (v : Option Bool) :
    (hasAttachParam v).find? (fun e => decide (e.1 = "hasAttachments"))
      = if v = some true then some ("hasAttachments", "true") else none := by
  cases v with
  | none => rfl
  | some b => cases b <;> simp [hasAttachParam]

theorem lookupParam_genParams_limit (f : SAMSearchFilters) :
    lookupParam (genParams f) "limit" = some (toString (min (jsOrInt f.limit 50) 100)) := by
  simp +decide [lookupParam, genParams, List.find?_append, find?_optStr_ne,
    find?_optRat_ne, find?_activeParam_ne, find?_hasAttachParam_ne]

theorem lookupParam_genParams_offset (f : SAMSearchFilters) :
    lookupParam (genParams f) "offset" = some (toString (jsOrInt f.offset 0)) := by
  simp +decide [lookupParam, genParams, List.find?_append, find?_optStr_ne,
    find?_optRat_ne, find?_activeParam_ne, find?_hasAttachParam_ne]

/-! Section: Concrete request environments for counterexamples and witnesses -/

/-- A request with every query parameter absent except the SAM API key. -/
def qpEmpty : QueryParams :=
  { q := none, startDate := none, endDate := none, naicsCode := none, state := none,
    agency := none, type := none, setAside := none, active := none, limit := none,
    offset := none, semantic := none, provider := none, samApiKey := some "key",
    entityName := none, contractVehicle := none, classificationCode := none,
    fundingSource := none, responseDeadlineFrom := none, responseDeadlineTo := none,
    estimatedValueMin := none, estimatedValueMax := none, hasAttachments := none,
    authorization := none }

/-- A concrete environment: upstream answers an empty listing page. -/
def envBase : GetEnv :=
  { normalizeDate := fun _ => none
  , parseIntJS := fun _ => none
  , parseFloatJS := fun _ => none
  , defaultStartDate := "01/01/2025"
  , defaultEndDate := "01/31/2025"
  , upstream := .ok { opportunitiesData := some [], totalRecords := 0 }
  , sim := fun _ _ => 0
  , embedFn := fun _ => .ok []
  , now := 0 }

/-- C5 counterexample: with the `active` query parameter absent, the
upstream request still carries `active=false` — the absent field is not
omitted, contradicting the claim for the `active` flag. -/
theorem claim_C5_cex :
    qpEmpty.active = none
    ∧ lookupParam (genParams (buildFilters envBase qpEmpty)) "active" = some "false" := by
  exact ⟨rfl, by decide⟩

/-- C5 (amended): every optional filter field except `active` is sent
upstream exactly when it is present and truthy — string fields when
non-empty, numeric bounds when non-zero, `hasAttachments` when `true` —
and absent fields are omitted; `active`, however, is sent whenever the
filter field is set, and the handler always sets it (to whether the raw
parameter equals `"true"`), so the upstream request always carries an
`active` parameter even when the query parameter is absent. -/
theorem claim_C5_amended :
    (∀ f : SAMSearchFilters,
      lookupParam (genParams f) "q" = jsOrUndefStr f.keyword
      ∧ lookupParam (genParams f) "postedFrom" = jsOrUndefStr f.startDate
      ∧ lookupParam (genParams f) "postedTo" = jsOrUndefStr f.endDate
      ∧ lookupParam (genParams f) "naicsCode" = jsOrUndefStr f.naicsCode
      ∧ lookupParam (genParams f) "state" = jsOrUndefStr f.state
      ∧ lookupParam (genParams f) "agency" = jsOrUndefStr f.agency
      ∧ lookupParam (genParams f) "noticeType" = jsOrUndefStr f.type
      ∧ lookupParam (genParams f) "setAside" = jsOrUndefStr f.setAside
      ∧ lookupParam (genParams f) "entityName" = jsOrUndefStr f.entityName
      ∧ lookupParam (genParams f) "contractVehicle" = jsOrUndefStr f.contractVehicle
      ∧ lookupParam (genParams f) "classificationCode" = jsOrUndefStr f.classificationCode
      ∧ lookupParam (genParams f) "fundingSource" = jsOrUndefStr f.fundingSource
      ∧ lookupParam (genParams f) "responseDeadlineFrom" = jsOrUndefStr f.responseDeadlineFrom
      ∧ lookupParam (genParams f) "responseDeadlineTo" = jsOrUndefStr f.responseDeadlineTo
      ∧ lookupParam (genParams f) "estimatedValueMin" = ratParamValue f.estimatedValueMin
      ∧ lookupParam (genParams f) "estimatedValueMax" = ratParamValue f.estimatedValueMax
      ∧ lookupParam (genParams f) "hasAttachments"
          = (if f.hasAttachments = some true then some "true" else none)
      ∧ lookupParam (genParams f) "active"
          = f.active.map (fun b => if b then "true" else "false"))
    ∧ (∀ (env : GetEnv) (qp : QueryParams),
        (buildFilters env qp).active = some (decide (qp.active = some "true"))
        ∧ (buildFilters env qp).hasAttachments
            = some (decide (qp.hasAttachments = some "true"))) := by
  constructor
  · intro f
    refine ⟨?_, ?_, ?_, ?_, ?_, ?_, ?_, ?_, ?_, ?_, ?_, ?_, ?_, ?_, ?_, ?_, ?_, ?_⟩ <;>
      simp +decide [lookupParam, genParams, List.find?_append, find?_optStr_ne,
        find?_optRat_ne, find?_activeParam_ne, find?_hasAttachParam_ne,
        find?_optStr_self, find?_optRat_self, find?_activeParam_self,
        find?_hasAttachParam_self, apply_ite]
    cases f.active with
    | none => rfl
    | some b => cases b <;> rfl
  · exact fun env qp => ⟨rfl, rfl⟩

/-- Environment for the C2 counterexample: `parseInt` resolves `"200"`. -/
def envC2 : GetEnv :=
  { envBase with parseIntJS := fun s => if s = "200" then some 200 else none }

/-- Request with `limit=200`. -/
def qpC2 : QueryParams := { qpEmpty with limit := some "200" }

/-- C2 counterexample: for `limit=200` the upstream request is clamped to
`limit=100`, but the success response echoes `limit: 200` — not the
claimed `min(requested, 100) = 100`. -/
theorem claim_C2_cex :
    (handleGET envC2 qpC2 none [] []).response.data.map SAMSearchResponse.limit = some 200
    ∧ ¬ ((handleGET envC2 qpC2 none [] []).response.data.map SAMSearchResponse.limit
          = some 100)
    ∧ lookupParam (genParams (buildFilters envC2 qpC2)) "limit" = some "100" := by
  refine ⟨by decide, by decide, by decide⟩

/-- C2 (amended): the `limit` parameter sent upstream is
`min(requested_limit_or_default_50, 100)`, but the `limit` echoed in the
success response is the unclamped `requested_limit_or_default_50`; for
`limit=200` the upstream receives 100 while the response echoes 200. -/
theorem claim_C2_amended :
    (∀ f : SAMSearchFilters,
        lookupParam (genParams f) "limit" = some (toString (min (jsOrInt f.limit 50) 100)))
    ∧ (∀ (env : GetEnv) (qp : QueryParams) (rw0 : Option RateWindow)
        (srCache : SearchResultsCache) (redisCache : RedisCache)
        (opps : List SAMOpportunity) (redis2 : RedisCache) (fetched : Bool),
        (checkSAMRateLimit rw0 env.now).1 = true →
        strPresent qp.samApiKey = true →
        cacheMissOrStale srCache (buildFilters env qp) CACHE_DURATION env.now = true →
        searchSAMOpportunities (buildFilters env qp) redisCache env.now env.upstream
          = (.ok opps, redis2, fetched) →
        (handleGET env qp rw0 srCache redisCache).response.data.map SAMSearchResponse.limit
          = some (jsOrInt (buildFilters env qp).limit 50)) := by
  constructor
  · exact lookupParam_genParams_limit
  · intro env qp rw0 srCache redisCache opps redis2 fetched hA hK hSr hsearch
    rw [handleGET_fresh env qp rw0 srCache redisCache hA hK hSr,
        freshSearch_of_ok env qp _ _ srCache redisCache opps redis2 fetched hsearch]
    rfl

/-- Concrete instance of C2 (amended): with no `limit` parameter the
response echoes the default 50. -/
theorem claim_C2_amended_witness :
    (handleGET envBase qpEmpty none [] []).response.data.map SAMSearchResponse.limit
      = some 50 := by
  have h := claim_C2_amended.2 envBase qpEmpty none [] [] []
    [(buildFilters envBase qpEmpty, [], 0)] true (by decide) (by decide) (by decide)
    (by rfl)
  simpa using h

/-- C3: when the upstream fetch fails, the handler responds 500 with the
composed upstream failure detail and a timestamp, both cache layers are
left exactly as they were, the upstream was consulted, and an identical
follow-up request (if admitted by the rate limiter) consults the
upstream again rather than replaying a cached failure. -/
theorem claim_C3 (env : GetEnv) (qp : QueryParams) (rw0 : Option RateWindow)
    (srCache : SearchResultsCache) (redisCache : RedisCache) (uf : UpstreamFailure)
    (hA : (checkSAMRateLimit rw0 env.now).1 = true)
    (hK : strPresent qp.samApiKey = true)
    (hSr : cacheMissOrStale srCache (buildFilters env qp) CACHE_DURATION env.now = true)
    (hRd : cacheMissOrStale redisCache (buildFilters env qp) SAM_SEARCH_TTL env.now = true)
    (hup : env.upstream = .error uf) :
    (handleGET env qp rw0 srCache redisCache).response.status = 500
    ∧ (handleGET env qp rw0 srCache redisCache).response.error
        = some (samErrorMessage uf)
    ∧ (handleGET env qp rw0 srCache redisCache).response.timestamp = some env.now
    ∧ (handleGET env qp rw0 srCache redisCache).searchResultsCache = srCache
    ∧ (handleGET env qp rw0 srCache redisCache).redisCache = redisCache
    ∧ (handleGET env qp rw0 srCache redisCache).upstreamCalled = true
    ∧ ((checkSAMRateLimit (some (handleGET env qp rw0 srCache redisCache).rateWindow)
          env.now).1 = true →
        (handleGET env qp (some (handleGET env qp rw0 srCache redisCache).rateWindow)
            (handleGET env qp rw0 srCache redisCache).searchResultsCache
            (handleGET env qp rw0 srCache redisCache).redisCache).upstreamCalled = true) := by
  have hsearch : searchSAMOpportunities (buildFilters env qp) redisCache env.now env.upstream
      = (.error (samErrorMessage uf), redisCache, true) := by
    rw [hup]
    exact searchSAMOpportunities_err (buildFilters env qp) redisCache env.now uf hRd
  have hrun : handleGET env qp rw0 srCache redisCache
      = { response := { status := 500, success := none, data := none, cached := none,
                        error := some (samErrorMessage uf), timestamp := some env.now }
        , searchResultsCache := srCache
        , redisCache := redisCache
        , rateWindow := (checkSAMRateLimit rw0 env.now).2
        , upstreamCalled := true } := by
    rw [handleGET_fresh env qp rw0 srCache redisCache hA hK hSr,
        freshSearch_of_err env qp (buildFilters env qp) _ srCache redisCache
          (samErrorMessage uf) redisCache true hsearch]
  rw [hrun]
  refine ⟨rfl, rfl, rfl, rfl, rfl, rfl, ?_⟩
  intro hA2
  rw [handleGET_fresh env qp _ srCache redisCache hA2 hK hSr,
      freshSearch_of_err env qp (buildFilters env qp) _ srCache redisCache
        (samErrorMessage uf) redisCache true hsearch]

/-- Concrete instance of C3: a failing upstream (HTTP 500) yields a 500
response carrying the upstream detail and leaves both caches empty. -/
theorem claim_C3_witness :
    (handleGET { envBase with
        upstream := .error { status := 500, statusText := "Server Error",
                             bodyText := "boom", errorMessageField := none } }
      qpEmpty none [] []).response.error
      = some "SAM.gov API error: 500 Server Error - boom"
    ∧ (handleGET { envBase with
        upstream := .error { status := 500, statusText := "Server Error",
                             bodyText := "boom", errorMessageField := none } }
      qpEmpty none [] []).searchResultsCache = [] := by
  have h := claim_C3 { envBase with
      upstream := .error { status := 500, statusText := "Server Error",
                           bodyText := "boom", errorMessageField := none } }
    qpEmpty none [] []
    { status := 500, statusText := "Server Error", bodyText := "boom",
      errorMessageField := none }
    (by decide) (by decide) (by decide) (by decide) rfl
  exact ⟨by rw [h.2.1]; rfl, h.2.2.2.1⟩

/-- C7 counterexample: a freshly fetched success response has no `cached`
field at all (contradicting "`cached` is present on every success
response"), and the 429 rate-limit body carries no timestamp. -/
theorem claim_C7_cex :
    (handleGET envBase qpEmpty none [] []).response.success = some true
    ∧ (handleGET envBase qpEmpty none [] []).response.cached = none
    ∧ (handleGET envBase qpEmpty (some ⟨100, 0⟩) [] []).response.status = 429
    ∧ (handleGET envBase qpEmpty (some ⟨100, 0⟩) [] []).response.timestamp = none := by
  refine ⟨by decide, by decide, by decide, by decide⟩

/-- C7 (amended): responses have these shapes — 429 rate-limit and 400
missing-key errors carry `{ error }` with no timestamp; a cache hit is
`{ success: true, data, cached: true, timestamp }`; a fresh success is
`{ success: true, data, timestamp }` with the `cached` field absent; an
upstream/internal failure is 500 with `{ error, timestamp }`. -/
theorem claim_C7_amended (env : GetEnv) (qp : QueryParams) (rw0 : Option RateWindow)
    (srCache : SearchResultsCache) (redisCache : RedisCache) :
    ((checkSAMRateLimit rw0 env.now).1 = false →
      (handleGET env qp rw0 srCache redisCache).response
        = { status := 429, success := none, data := none, cached := none,
            error := some "Rate limit exceeded. Please try again later.",
            timestamp := none })
    ∧ ((checkSAMRateLimit rw0 env.now).1 = true → strPresent qp.samApiKey = false →
      (handleGET env qp rw0 srCache redisCache).response
        = { status := 400, success := none, data := none, cached := none,
            error := some "SAM API key is required", timestamp := none })
    ∧ (∀ (payload : SAMSearchResponse) (t : Nat),
        (checkSAMRateLimit rw0 env.now).1 = true → strPresent qp.samApiKey = true →
        cacheLookup srCache (buildFilters env qp) = some (payload, t) →
        env.now - t < CACHE_DURATION →
        (handleGET env qp rw0 srCache redisCache).response
          = { status := 200, success := some true, data := some payload,
              cached := some true, error := none, timestamp := some env.now })
    ∧ (∀ (opps : List SAMOpportunity) (redis2 : RedisCache) (fetched : Bool),
        (checkSAMRateLimit rw0 env.now).1 = true → strPresent qp.samApiKey = true →
        cacheMissOrStale srCache (buildFilters env qp) CACHE_DURATION env.now = true →
        searchSAMOpportunities (buildFilters env qp) redisCache env.now env.upstream
          = (.ok opps, redis2, fetched) →
        ∃ payload : SAMSearchResponse,
          (handleGET env qp rw0 srCache redisCache).response
            = { status := 200, success := some true, data := some payload,
                cached := none, error := none, timestamp := some env.now })
    ∧ (∀ (msg : String) (redis2 : RedisCache) (fetched : Bool),
        (checkSAMRateLimit rw0 env.now).1 = true → strPresent qp.samApiKey = true →
        cacheMissOrStale srCache (buildFilters env qp) CACHE_DURATION env.now = true →
        searchSAMOpportunities (buildFilters env qp) redisCache env.now env.upstream
          = (.error msg, redis2, fetched) →
        (handleGET env qp rw0 srCache redisCache).response
          = { status := 500, success := none, data := none, cached := none,
              error := some msg, timestamp := some env.now }) := by
  refine ⟨?_, ?_, ?_, ?_, ?_⟩
  · intro hA
    rw [handleGET_rateLimited env qp rw0 srCache redisCache hA]
  · intro hA hK
    rw [handleGET_badKey env qp rw0 srCache redisCache hA hK]
  · intro payload t hA hK hl hf
    rw [handleGET_cacheHit env qp rw0 srCache redisCache payload t hA hK hl hf]
  · intro opps redis2 fetched hA hK hSr hsearch
    rw [handleGET_fresh env qp rw0 srCache redisCache hA hK hSr,
        freshSearch_of_ok env qp _ _ srCache redisCache opps redis2 fetched hsearch]
    exact ⟨_, rfl⟩
  · intro msg redis2 fetched hA hK hSr hsearch
    rw [handleGET_fresh env qp rw0 srCache redisCache hA hK hSr,
        freshSearch_of_err env qp _ _ srCache redisCache msg redis2 fetched hsearch]

/-- Concrete instance of C7 (amended): a rejected request gets the bare
429 body, and a fresh success carries `success`, `data`, `timestamp`. -/
theorem claim_C7_amended_witness :
    (handleGET envBase qpEmpty (some ⟨100, 0⟩) [] []).response
      = { status := 429, success := none, data := none, cached := none,
          error := some "Rate limit exceeded. Please try again later.",
          timestamp := none }
    ∧ ∃ payload : SAMSearchResponse,
        (handleGET envBase qpEmpty none [] []).response
          = { status := 200, success := some true, data := some payload,
              cached := none, error := none, timestamp := some 0 } := by
  constructor
  · exact (claim_C7_amended envBase qpEmpty (some ⟨100, 0⟩) [] []).1 (by decide)
  · exact (claim_C7_amended envBase qpEmpty none [] []).2.2.2.1 [] [(buildFilters envBase qpEmpty, [], 0)]
      true (by decide) (by decide) (by decide) (by rfl)

/-- A raw listing with a numbered notice id, for concrete runs. -/
def rawOppN (n : Nat) : RawOpportunity :=
  { noticeId := some (toString n), solicitationNumber := "s", title := "t",
    description := some "d", synopsis := some "y" }

/-- An environment whose upstream returns 30 listings and reports a
total-record count of 7 (which the route ignores). -/
def envT : GetEnv :=
  { envBase with
      upstream := .ok { opportunitiesData := some ((List.range 30).map rawOppN),
                        totalRecords := 7 } }

/-- A semantic-search request (query, `semantic=true`, bearer token). -/
def qpT : QueryParams :=
  { qpEmpty with q := some "query", semantic := some "true",
                 authorization := some "Bearer k" }

/-- C10: on a fresh success, `totalRecords` equals the length of the
transformed upstream list before any semantic reranking, and is
insensitive to the total-record count the upstream reports (the route
never reads it); concretely, a semantic search over 30 fetched listings
returns 25 opportunities while `totalRecords` stays 30 — strictly more
than the returned array's length and unrelated to the upstream's
reported count of 7. -/
theorem claim_C10 (env : GetEnv) (qp : QueryParams) (rw0 : Option RateWindow)
    (srCache : SearchResultsCache) (redisCache : RedisCache) (p : UpstreamPayload)
    (hA : (checkSAMRateLimit rw0 env.now).1 = true)
    (hK : strPresent qp.samApiKey = true)
    (hSr : cacheMissOrStale srCache (buildFilters env qp) CACHE_DURATION env.now = true)
    (hRd : cacheMissOrStale redisCache (buildFilters env qp) SAM_SEARCH_TTL env.now = true)
    (hup : env.upstream = .ok p) :
    ((handleGET env qp rw0 srCache redisCache).response.data.map SAMSearchResponse.totalRecords
      = some ((p.opportunitiesData.getD []).map transformOpportunity).length)
    ∧ (∀ n : Nat,
        (handleGET { env with upstream := .ok { p with totalRecords := n } } qp rw0 srCache
            redisCache).response.data.map SAMSearchResponse.totalRecords
          = some ((p.opportunitiesData.getD []).map transformOpportunity).length)
    ∧ ((handleGET envT qpT none [] []).response.data.map
          (fun d => d.opportunities.length) = some 25
       ∧ (handleGET envT qpT none [] []).response.data.map SAMSearchResponse.totalRecords
          = some 30) := by
  refine ⟨?_, ?_, by decide, by decide⟩
  · have hsearch : searchSAMOpportunities (buildFilters env qp) redisCache env.now env.upstream
        = (.ok ((p.opportunitiesData.getD []).map transformOpportunity),
           (buildFilters env qp, (p.opportunitiesData.getD []).map transformOpportunity,
            env.now) :: redisCache, true) := by
      rw [hup]
      exact searchSAMOpportunities_ok (buildFilters env qp) redisCache env.now p hRd
    rw [handleGET_fresh env qp rw0 srCache redisCache hA hK hSr,
        freshSearch_of_ok env qp _ _ srCache redisCache _ _ _ hsearch]
    rfl
  · intro n
    have hsearch : searchSAMOpportunities (buildFilters env qp) redisCache env.now
          (.ok { p with totalRecords := n })
        = (.ok ((p.opportunitiesData.getD []).map transformOpportunity),
           (buildFilters env qp, (p.opportunitiesData.getD []).map transformOpportunity,
            env.now) :: redisCache, true) :=
      searchSAMOpportunities_ok (buildFilters env qp) redisCache env.now
        { p with totalRecords := n } hRd
    rw [handleGET_fresh { env with upstream := .ok { p with totalRecords := n } } qp rw0
          srCache redisCache hA hK hSr,
        freshSearch_of_ok _ qp _ _ srCache redisCache _ _ _ hsearch]
    rfl

/-- Concrete instance of C10: an empty fetched page yields
`totalRecords = 0` regardless of the upstream-reported count. -/
theorem claim_C10_witness :
    (handleGET envBase qpEmpty none [] []).response.data.map SAMSearchResponse.totalRecords
      = some 0
    ∧ (handleGET
          { envBase with
              upstream := .ok { opportunitiesData := some [], totalRecords := 999 } }
          qpEmpty none [] []).response.data.map
        SAMSearchResponse.totalRecords = some 0 := by
  have h := claim_C10 envBase qpEmpty none [] []
    { opportunitiesData := some [], totalRecords := 0 }
    (by decide) (by decide) (by decide) (by decide) rfl
  exact ⟨h.1, h.2.1 999⟩

/-- C4: if embedding fails for the query or for any candidate (provider
error, unsupported provider, malformed output — all surfacing as a
rejected `generateEmbeddings` promise), the semantic-search step returns
the original candidate list unchanged in upstream order, and the `GET`
handler still responds 200 success with no error field, the returned
opportunities being exactly the fetched list. -/
theorem claim_C4 :
    (∀ (sim : List ℚ → List ℚ → ℚ) (embedFn : String → Except String (List ℚ))
        (opportunities : List SAMOpportunity) (query : String),
      ((∃ e, embedFn query = .error e)
        ∨ ∃ o ∈ opportunities, ∃ e, embedFn (oppText o) = .error e) →
      performSemanticSearch sim embedFn opportunities query = opportunities)
    ∧ (∀ (env : GetEnv) (qp : QueryParams) (rw0 : Option RateWindow)
        (srCache : SearchResultsCache) (redisCache : RedisCache)
        (opps : List SAMOpportunity) (redis2 : RedisCache) (fetched : Bool),
      (checkSAMRateLimit rw0 env.now).1 = true →
      strPresent qp.samApiKey = true →
      cacheMissOrStale srCache (buildFilters env qp) CACHE_DURATION env.now = true →
      searchSAMOpportunities (buildFilters env qp) redisCache env.now env.upstream
        = (.ok opps, redis2, fetched) →
      ((∃ e, env.embedFn (qp.q.getD "") = .error e)
        ∨ ∃ o ∈ opps, ∃ e, env.embedFn (oppText o) = .error e) →
      (handleGET env qp rw0 srCache redisCache).response.status = 200
      ∧ (handleGET env qp rw0 srCache redisCache).response.success = some true
      ∧ (handleGET env qp rw0 srCache redisCache).response.error = none
      ∧ (handleGET env qp rw0 srCache redisCache).response.data.map
          SAMSearchResponse.opportunities = some opps) := by
  constructor
  · exact performSemanticSearch_embed_error
  · intro env qp rw0 srCache redisCache opps redis2 fetched hA hK hSr hsearch hfail
    rw [handleGET_fresh env qp rw0 srCache redisCache hA hK hSr,
        freshSearch_of_ok env qp _ _ srCache redisCache opps redis2 fetched hsearch]
    have hsem : (if qp.semantic = some "true" ∧ strPresent qp.q = true
          ∧ strPresent (qp.authorization.map stripBearer) = true then
        performSemanticSearch env.sim env.embedFn opps (qp.q.getD "")
      else opps) = opps := by
      by_cases hcond : qp.semantic = some "true" ∧ strPresent qp.q = true
          ∧ strPresent (qp.authorization.map stripBearer) = true
      · rw [if_pos hcond]
        exact performSemanticSearch_embed_error env.sim env.embedFn opps (qp.q.getD "") hfail
      · rw [if_neg hcond]
    refine ⟨rfl, rfl, rfl, ?_⟩
    show some (buildPayload (buildFilters env qp) opps _).opportunities = some opps
    rw [hsem]
    rfl

/-- Concrete instance of C4: a failing embedding provider leaves the
candidate list untouched. -/
theorem claim_C4_witness :
    performSemanticSearch (fun _ _ => (0 : ℚ)) (fun _ => .error "boom") [oppA, oppB] "x"
      = [oppA, oppB] :=
  claim_C4.1 (fun _ _ => (0 : ℚ)) (fun _ => .error "boom") [oppA, oppB] "x"
    (Or.inl ⟨"boom", rfl⟩)
